import Mathlib

/-!
Verification of the job-lifecycle engine of the `differential` repository
(control plane + worker client), against its natural-language specification.

The control plane stores jobs in a relational table (`data.ts`, table `jobs`);
we embed that table as a `List Job` in insertion order.  A `SELECT` without an
`ORDER BY` is modelled as a scan in that list order; an `ORDER BY x DESC
LIMIT 1` is modelled as the first row (in list order) attaining the maximal
value of `x`, i.e. a stable determinization.  The SQL guarantees neither
order: for ordering-sensitive claims the predicates
`isAdmissibleClaimSelection` and `isCacheProbeResult` state what the
unordered queries actually guarantee, and those claims are settled
against the guarantees, not against the determinization.  Timestamps are
integers (milliseconds), as produced by `Date.now()`.

Embedded operations, each translated from the source:
  * `nextJobs`           — dispatcher claim (`jobs.ts`, the raw SQL UPDATE);
  * `createJob`          — admission with its `default` and `cached` strategies
                           (`create-job.ts`);
  * `getJobStatuses`     — batch long-poll status retrieval (`jobs.ts`);
  * `ttlQueryParse`      — the zod validator of the `ttl` query/body parameter
                           (`contract.ts`);
  * `pollStep`           — the worker polling agent's error/idle accounting
                           (`Differential.ts`, class `PollingAgent`).
-/

/-- Job status column: `enum: ["pending", "running", "success", "failure"]`
(`data.ts`). -/
inductive JobStatus
  | pending
  | running
  | success
  | failure
  deriving DecidableEq, Repr

/-- Result type column: `enum: ["resolution", "rejection"]` (`data.ts`). -/
inductive ResultType
  | resolution
  | rejection
  deriving DecidableEq, Repr

/-- One row of the `jobs` table (`data.ts`).  Timestamps are `Int`
milliseconds.  `idempotency_key` is declared `NOT NULL` in the schema but is
never supplied by any insert in `create-job.ts`; we record that as an
`Option` left `none` by the inserts.  Observability-only columns
(`created_at`, `updated_at`, `function_execution_time_ms`,
`predicted_to_be_retryable*`, `predictive_retry_count`) are read or written
by none of the operations verified here and are omitted. -/
structure Job where
  id : String
  owner_hash : String
  deployment_id : Option String
  target_fn : String
  target_args : String
  idempotency_key : Option String
  cache_key : Option String
  status : JobStatus
  result : Option String
  result_type : Option ResultType
  executing_machine_id : Option String
  remaining_attempts : Int
  resulted_at : Option Int
  last_retrieved_at : Option Int
  timeout_interval_seconds : Option Int
  service : String
  predictive_retry_enabled : Option Bool
  deriving DecidableEq, Repr

/-! ## Dispatcher claim (`nextJobs`, jobs.ts)

```
UPDATE jobs SET status = 'running',
  remaining_attempts = remaining_attempts - 1,
  last_retrieved_at = <now>, executing_machine_id = <machineId>
WHERE id IN (SELECT id FROM jobs
  WHERE (status = 'pending' OR (status = 'failure' AND remaining_attempts > 0))
  AND owner_hash = <cluster> AND service = <service> LIMIT <limit>)
RETURNING id, target_fn, target_args
```
-/

/-- The row filter of the claim subquery:
`(status = 'pending' OR (status = 'failure' AND remaining_attempts > 0))
AND owner_hash = owner AND service = service`. -/
def claimFilter (owner service : String) (j : Job) : Bool :=
  (j.status == .pending || (j.status == .failure && j.remaining_attempts > 0))
    && j.owner_hash == owner && j.service == service

/-- Ids selected by the subquery in this model: the first `limit` rows,
in table order, passing `claimFilter`.  The query has no `ORDER BY`, so
the SQL guarantees no scan order: this insertion-order scan is one
admissible determinization; `isAdmissibleClaimSelection` states what the
subquery actually guarantees, and no claim's statement rests on which
admissible selection this function makes. -/
def selectedIds (db : List Job) (owner service : String) (limit : Nat) :
    List String :=
  (((db.filter (claimFilter owner service)).take limit).map Job.id)

/-- The `SET` clause applied to one claimed row. -/
def claimUpdate (now : Int) (machineId : String) (j : Job) : Job :=
  { j with
    status := .running
    remaining_attempts := j.remaining_attempts - 1
    last_retrieved_at := some now
    executing_machine_id := some machineId }

/-- Operation `nextJobs`: returns the updated table and the `RETURNING id, target_fn,
target_args` projection of the claimed rows. -/
def nextJobs (db : List Job) (owner service : String) (limit : Nat)
    (machineId : String) (now : Int) :
    List Job × List (String × String × String) :=
  let ids := selectedIds db owner service limit
  let db' := db.map fun j =>
    if ids.contains j.id then claimUpdate now machineId j else j
  let returned := (db'.filter fun j => ids.contains j.id).map fun j =>
    (j.id, j.target_fn, j.target_args)
  (db', returned)

/-- What the claim subquery guarantees about its result, per the SQL
semantics of `SELECT id FROM jobs WHERE <filter> LIMIT <limit>` with no
`ORDER BY`: a list of distinct ids of rows passing `claimFilter`, of
size `min limit <matching row count>`.  WHICH matching rows are selected
is unspecified, and any such id list is an admissible outcome of the
subquery. -/
def isAdmissibleClaimSelection (db : List Job) (owner service : String)
    (limit : Nat) (ids : List String) : Bool :=
  (ids.length == min limit (db.filter (claimFilter owner service)).length)
    && ids.all (fun i =>
      (db.filter (claimFilter owner service)).any (fun j => j.id == i))
    && decide ids.Nodup

/-! ## Admission (`createJob`, create-job.ts) -/

/-- The `callConfig.cache` option: `{ key: string; ttlSeconds: number }`. -/
structure CacheConfig where
  key : String
  ttlSeconds : Int
  deriving DecidableEq, Repr

/-- The `CallConfig` type of create-job.ts (recognised call options). -/
structure CallConfig where
  cache : Option CacheConfig
  retryCountOnStall : Option Int
  predictiveRetriesOnRejection : Option Bool
  timeoutSeconds : Option Int
  executionId : Option String
  deriving DecidableEq, Repr

/-- Source constant `DEFAULT_RETRY_COUNT_ON_STALL = 1`. -/
def DEFAULT_RETRY_COUNT_ON_STALL : Int := 1

/-- The row inserted by either createJob strategy.  Fields not listed in the
insert's `values` are `none`; in particular `idempotency_key` is not
supplied by either strategy.  `remaining_attempts := maxAttempts ?? 1`. -/
def newJobRow (jobId targetFn targetArgs clusterId : String)
    (deploymentId : Option String) (service : String)
    (cacheKey : Option String) (maxAttempts : Option Int)
    (timeoutIntervalSeconds : Option Int)
    (predictiveRetriesEnabled : Option Bool) : Job :=
  { id := jobId
    owner_hash := clusterId
    deployment_id := deploymentId
    target_fn := targetFn
    target_args := targetArgs
    idempotency_key := none
    cache_key := cacheKey
    status := .pending
    result := none
    result_type := none
    executing_machine_id := none
    remaining_attempts := maxAttempts.getD 1
    resulted_at := none
    last_retrieved_at := none
    timeout_interval_seconds := timeoutIntervalSeconds
    service := service
    predictive_retry_enabled := predictiveRetriesEnabled }

/-- Strategy `createJobStrategies.default`: generate a fresh ulid (passed in as
`jobId`), insert a pending row, return the new id.  No column of the
existing table is read: in particular the caller's idempotency key (which
the HTTP contract accepts) reaches neither this strategy nor the insert. -/
def createJobStrategiesDefault (db : List Job)
    (service targetFn targetArgs clusterId : String)
    (deploymentId : Option String)
    (timeoutIntervalSeconds maxAttempts : Option Int)
    (predictiveRetriesEnabled : Option Bool) (jobId : String) :
    List Job × String :=
  (db ++ [newJobRow jobId targetFn targetArgs clusterId deploymentId service
      none maxAttempts timeoutIntervalSeconds predictiveRetriesEnabled],
    jobId)

/-- The WHERE clause of the cached strategy's probe:
`cache_key = k ∧ owner_hash = cluster ∧ service ∧ target_fn ∧
status = 'success' ∧ result_type = 'resolution' ∧
resulted_at ≥ now − ttlSeconds·1000` (a NULL `resulted_at` fails the
comparison). -/
def cacheMatch (now : Int) (clusterId service targetFn cacheKey : String)
    (ttlSeconds : Int) (j : Job) : Bool :=
  j.cache_key == some cacheKey && j.owner_hash == clusterId
    && j.service == service && j.target_fn == targetFn
    && j.status == .success && j.result_type == some .resolution
    && (match j.resulted_at with
        | some t => decide (now - ttlSeconds * 1000 ≤ t)
        | none => false)

/-- One comparison step of the `ORDER BY resulted_at DESC LIMIT 1`
determinization: keep the incumbent unless the candidate's `resulted_at`
is strictly newer. -/
def pickNewestStep (best : Option Job) (j : Job) : Option Job :=
  match best with
  | none => some j
  | some b =>
      if b.resulted_at.getD 0 < j.resulted_at.getD 0 then some j else best

/-- Clause `ORDER BY resulted_at DESC LIMIT 1` over the probe's matches,
in this model: the first row, in table order, attaining the maximal
`resulted_at`.  The SQL guarantees only that a returned row attains the
maximal `resulted_at` — the tie order among equal `resulted_at` is
unspecified (see `isCacheProbeResult`) — so this stable determinization
is one admissible choice, and no claim's statement relies on which tied
row it picks. -/
def pickNewest (l : List Job) : Option Job :=
  l.foldl pickNewestStep none

/-- What the cache probe guarantees about its result, per the SQL
semantics of `ORDER BY resulted_at DESC LIMIT 1`: a returned row is a
matching row attaining the maximal `resulted_at`; among rows tied at the
maximum, which one is returned is unspecified, and any such row is an
admissible outcome of the probe. -/
def isCacheProbeResult (l : List Job) (j : Job) : Bool :=
  l.contains j && l.all (fun j2 =>
    j2.resulted_at.getD 0 ≤ j.resulted_at.getD 0)

/-- Strategy `createJobStrategies.cached`: probe for a fresh successful resolution
with the same cache key; on a hit return its id without inserting, on a
miss insert a fresh pending row carrying the cache key. -/
def createJobStrategiesCached (db : List Job)
    (service targetFn targetArgs clusterId : String)
    (deploymentId : Option String)
    (timeoutIntervalSeconds maxAttempts : Option Int)
    (predictiveRetriesEnabled : Option Bool)
    (cacheKey : String) (cacheTTLSeconds : Int) (jobId : String) (now : Int) :
    List Job × String :=
  match pickNewest (db.filter
      (cacheMatch now clusterId service targetFn cacheKey cacheTTLSeconds)) with
  | some j => (db, j.id)
  | none =>
      (db ++ [newJobRow jobId targetFn targetArgs clusterId deploymentId
          service (some cacheKey) maxAttempts timeoutIntervalSeconds
          predictiveRetriesEnabled],
        jobId)

/-- Function `createJob` (create-job.ts): computes
`maxAttempts = (retryCountOnStall ?? DEFAULT_RETRY_COUNT_ON_STALL) + 1` and
dispatches to the cached strategy when `callConfig?.cache?.key &&
callConfig?.cache?.ttlSeconds` is truthy (non-empty key and non-zero ttl),
else to the default strategy.  `jobId` stands for the fresh `ulid()` and
`now` for `Date.now()`. -/
def createJob (db : List Job) (service targetFn targetArgs clusterId : String)
    (deploymentId : Option String) (callConfig : Option CallConfig)
    (jobId : String) (now : Int) : List Job × String :=
  let maxAttempts :=
    ((callConfig.bind CallConfig.retryCountOnStall).getD
      DEFAULT_RETRY_COUNT_ON_STALL) + 1
  let tis := callConfig.bind CallConfig.timeoutSeconds
  let pre := callConfig.bind CallConfig.predictiveRetriesOnRejection
  match callConfig.bind CallConfig.cache with
  | some c =>
      if c.key != "" && c.ttlSeconds != 0 then
        createJobStrategiesCached db service targetFn targetArgs clusterId
          deploymentId tis (some maxAttempts) pre c.key c.ttlSeconds jobId now
      else
        createJobStrategiesDefault db service targetFn targetArgs clusterId
          deploymentId tis (some maxAttempts) pre jobId
  | none =>
      createJobStrategiesDefault db service targetFn targetArgs clusterId
        deploymentId tis (some maxAttempts) pre jobId

/-- The spec's candidate ordering for the cache probe, stated for
comparison with the code: "Ordering: newest-first on `resulted_at`; ties
broken by id descending" — i.e. the match with maximal
`(resulted_at, id)` lexicographically (id compared as the usual
lexicographic character order, via `String.toList`). -/
def cachedOrderingSpec (l : List Job) : Option Job :=
  l.foldl
    (fun best j =>
      match best with
      | none => some j
      | some b =>
          if b.resulted_at.getD 0 < j.resulted_at.getD 0 then some j
          else if b.resulted_at.getD 0 == j.resulted_at.getD 0
              && b.id.toList < j.id.toList then some j
          else best)
    none

/-! ## Batch long-poll status retrieval (`getJobStatuses`, jobs.ts)

The loop re-reads the table, so the table is modelled as a function
`snaps : Nat → List Job` giving the snapshot seen by the i-th read.  Each
unresolved iteration sleeps 500 ms, so after the i-th iteration
`Date.now() − start = 500·(i+1)` in this model (reads are instantaneous).
-/

/-- The projection selected by `getJobStatuses`. -/
structure StatusRow where
  id : String
  service : String
  status : JobStatus
  result : Option String
  resultType : Option ResultType
  deriving DecidableEq, Repr

/-- One read of the loop: rows with `owner_hash = clusterId` and
`id IN jobIds`, projected. -/
def selectJobStatuses (db : List Job) (clusterId : String)
    (jobIds : List String) : List StatusRow :=
  (db.filter fun j => j.owner_hash == clusterId && jobIds.contains j.id).map
    fun j =>
      { id := j.id
        service := j.service
        status := j.status
        result := j.result
        resultType := j.result_type }

/-- Predicate `jobs.some(job => job.status === "success" || job.status === "failure")`. -/
def hasResolvedRows (rows : List StatusRow) : Bool :=
  rows.any fun r => r.status == .success || r.status == .failure

/-- Outcome of a `getJobStatuses` call: the returned rows, the number of
table reads and 500 ms sleeps performed, and the index of the snapshot the
returned rows came from. -/
structure StatusPollResult where
  rows : List StatusRow
  reads : Nat
  sleeps : Nat
  lastIndex : Nat
  deriving DecidableEq, Repr

/-- The do/while loop of `getJobStatuses`: read, return if some row is
resolved, else sleep 500 ms and continue while `Date.now() − start <
longPollTimeout`.  `fuel` only guarantees termination; the wrapper passes
enough fuel that it never runs out before the while-condition fails. -/
def pollStatusLoop (snaps : Nat → List Job) (clusterId : String)
    (jobIds : List String) (longPollTimeout : Int) :
    Nat → Nat → Nat → Nat → StatusPollResult
  | i, fuel, reads, sleeps =>
    let rows := selectJobStatuses (snaps i) clusterId jobIds
    let resolved := hasResolvedRows rows
    let reads' := reads + 1
    let sleeps' := if resolved then sleeps else sleeps + 1
    match fuel with
    | 0 => { rows := rows, reads := reads', sleeps := sleeps', lastIndex := i }
    | fuel' + 1 =>
        if !resolved && (500 * ((i : Int) + 1) < longPollTimeout) then
          pollStatusLoop snaps clusterId jobIds longPollTimeout
            (i + 1) fuel' reads' sleeps'
        else
          { rows := rows, reads := reads', sleeps := sleeps', lastIndex := i }

/-- Function `getJobStatuses` (jobs.ts): an empty id list returns `[]` before any
read or sleep; otherwise the long-poll loop runs, `longPollTimeout`
defaulting to 20000. -/
def getJobStatuses (snaps : Nat → List Job) (clusterId : String)
    (jobIds : List String) (longPollTimeout : Int := 20000) :
    StatusPollResult :=
  if jobIds.length == 0 then
    { rows := [], reads := 0, sleeps := 0, lastIndex := 0 }
  else
    pollStatusLoop snaps clusterId jobIds longPollTimeout 0
      (longPollTimeout.toNat / 500 + 1) 0 0

/-! ## The `ttl` request parameter (contract.ts)

`ttl: z.coerce.number().min(5000).max(20000).default(20000)` — used both by
`createJobsRequest` and `getJobStatus`.  zod's `.min`/`.max` are
validators: a value outside the bounds fails parsing (the request is
rejected with a validation error); `.default` applies only when the field
is absent.
-/

/-- Validation error produced by the zod chain. -/
inductive TtlParseError
  | tooSmall
  | tooBig
  deriving DecidableEq, Repr

/-- The zod validation of the `ttl` parameter. -/
def ttlQueryParse (v : Option Int) : Except TtlParseError Int :=
  match v with
  | none => .ok 20000
  | some n =>
      if n < 5000 then .error .tooSmall
      else if 20000 < n then .error .tooBig
      else .ok n

/-! ## Worker polling agent (`PollingAgent`, Differential.ts)

`poll()` classifies each `pollForNextJob` outcome and updates
`errorCount`/`idleCycleCount`, then runs the two quit checks.  A 401 makes
`pollForNextJob` throw, which terminates the loop without the quit
protocol (`crashed` below); the quit checks call `quit()` (`stopped`
below), after which the next iteration sees the aborted signal and stops.
-/

/-- What one `pollForNextJob` call produced, as classified by its
`if/else` chain: status 200 → `ok` with the number of jobs received;
status 401 → `unauthorized` (throws); status 400, network errors and every
other status → `err` (`ok: false`). -/
inductive PollOutcome
  | ok (jobCount : Nat)
  | err
  | unauthorized
  deriving DecidableEq, Repr

/-- Mutable agent state touched by the loop. -/
structure AgentState where
  errorCount : Nat
  idleCycleCount : Nat
  stopped : Bool
  crashed : Bool
  deriving DecidableEq, Repr

/-- Agent state at construction. -/
def initialAgentState : AgentState :=
  { errorCount := 0, idleCycleCount := 0, stopped := false, crashed := false }

/-- The two checks run at the end of `poll()`:
`if (errorCount > 10) quit(); if (maxIdleCycles && idleCycleCount >=
maxIdleCycles) quit()`. -/
def applyQuitChecks (maxIdleCycles : Option Nat) (s : AgentState) :
    AgentState :=
  let s1 := if 10 < s.errorCount then { s with stopped := true } else s
  match maxIdleCycles with
  | some m => if m ≤ s1.idleCycleCount then { s1 with stopped := true } else s1
  | none => s1

/-- One iteration of `poll()`.  A stopped or crashed agent performs no
further transitions (the abort signal short-circuits the next
iteration). -/
def pollStep (maxIdleCycles : Option Nat) (s : AgentState)
    (o : PollOutcome) : AgentState :=
  if s.stopped || s.crashed then s
  else
    match o with
    | .unauthorized => { s with crashed := true }
    | .ok jobCount =>
        applyQuitChecks maxIdleCycles
          { s with
            errorCount := 0
            idleCycleCount :=
              if 0 < jobCount then 0 else s.idleCycleCount + 1 }
    | .err =>
        applyQuitChecks maxIdleCycles
          { s with errorCount := s.errorCount + 1 }

/-- Folding a sequence of poll outcomes from a starting state. -/
def pollRun (maxIdleCycles : Option Nat) (s : AgentState)
    (os : List PollOutcome) : AgentState :=
  os.foldl (pollStep maxIdleCycles) s

/-! ## Claims -/

/-- Claim C10 (confirmed): a `getJobStatuses` call with an empty job-id
list returns an empty list immediately — no table read, no sleep —
whatever the supplied long-poll timeout. -/
theorem getJobStatuses_empty_ids (snaps : Nat → List Job) (clusterId : String)
    (timeout : Int) :
    getJobStatuses snaps clusterId [] timeout =
      { rows := [], reads := 0, sleeps := 0, lastIndex := 0 } := rfl

/-- Claim C8, counterexample: the `ttl` validator rejects out-of-range
values; it does not clip them to the nearest bound.  A caller-supplied
3000 is a validation error, not `ok 5000`; 25000 is a validation error,
not `ok 20000`. -/
theorem ttl_out_of_range_rejected_not_clipped :
    ttlQueryParse (some 3000) = .error .tooSmall ∧
    ttlQueryParse (some 3000) ≠ .ok 5000 ∧
    ttlQueryParse (some 25000) = .error .tooBig ∧
    ttlQueryParse (some 25000) ≠ .ok 20000 := by
  refine ⟨rfl, ?_, rfl, ?_⟩ <;> simp [ttlQueryParse]

/-- Claim C8 (corrected): the long-poll `ttl` parameter defaults to
20000 ms when absent, passes through unchanged when within
[5000, 20000], and is rejected by request validation when outside those
bounds (not clipped). -/
theorem ttlQueryParse_bounds :
    ttlQueryParse none = .ok 20000 ∧
    (∀ n : Int, 5000 ≤ n → n ≤ 20000 → ttlQueryParse (some n) = .ok n) ∧
    (∀ n : Int, n < 5000 → ttlQueryParse (some n) = .error .tooSmall) ∧
    (∀ n : Int, 20000 < n → ttlQueryParse (some n) = .error .tooBig) := by
  refine ⟨rfl, ?_, ?_, ?_⟩
  · intro n h1 h2
    show (if n < 5000 then (Except.error TtlParseError.tooSmall : Except TtlParseError Int)
        else if 20000 < n then Except.error TtlParseError.tooBig
        else Except.ok n) = Except.ok n
    rw [if_neg (by omega), if_neg (by omega)]
  · intro n h1
    show (if n < 5000 then (Except.error TtlParseError.tooSmall : Except TtlParseError Int)
        else if 20000 < n then Except.error TtlParseError.tooBig
        else Except.ok n) = Except.error TtlParseError.tooSmall
    rw [if_pos h1]
  · intro n h1
    show (if n < 5000 then (Except.error TtlParseError.tooSmall : Except TtlParseError Int)
        else if 20000 < n then Except.error TtlParseError.tooBig
        else Except.ok n) = Except.error TtlParseError.tooBig
    rw [if_neg (by omega), if_pos h1]

/-- Claim C8, witness: the bounds theorem applied at 7000 (in range),
3000 (too small) and 25000 (too big). -/
theorem ttlQueryParse_bounds_witness :
    ((5000 : Int) ≤ 7000 ∧ (7000 : Int) ≤ 20000 ∧
      ttlQueryParse (some 7000) = .ok 7000) ∧
    ((3000 : Int) < 5000 ∧ ttlQueryParse (some 3000) = .error .tooSmall) ∧
    ((20000 : Int) < 25000 ∧ ttlQueryParse (some 25000) = .error .tooBig) :=
  ⟨⟨by norm_num, by norm_num,
      ttlQueryParse_bounds.2.1 7000 (by norm_num) (by norm_num)⟩,
    ⟨by norm_num, ttlQueryParse_bounds.2.2.1 3000 (by norm_num)⟩,
    ⟨by norm_num, ttlQueryParse_bounds.2.2.2 25000 (by norm_num)⟩⟩

/-- Claim C9, counterexample: after exactly 10 consecutive poll errors the
agent has neither quit nor crashed — the quit check is `errorCount > 10`,
so 10 consecutive errors do not terminate it. -/
theorem ten_consecutive_errors_do_not_stop_agent :
    (pollRun none initialAgentState (List.replicate 10 .err)).stopped = false ∧
    (pollRun none initialAgentState (List.replicate 10 .err)).crashed = false ∧
    (pollRun none initialAgentState (List.replicate 10 .err)).errorCount = 10 := by
  decide

/-- Claim C9 (corrected): a poll ending in a network error or a non-401
error status increments the consecutive-error count and a successful poll
resets it to 0; the agent self-terminates once the count exceeds 10 —
i.e. after 11 consecutive errors, not 10 — and a single 401 aborts the
agent immediately regardless of the count. -/
theorem pollAgent_error_accounting :
    (∀ s : AgentState, s.stopped = false → s.crashed = false →
      (pollStep none s .err).errorCount = s.errorCount + 1 ∧
        ((pollStep none s .err).stopped = true ↔ 10 < s.errorCount + 1)) ∧
    (∀ s : AgentState, ∀ n : Nat, s.stopped = false → s.crashed = false →
      (pollStep none s (.ok n)).errorCount = 0 ∧
        (pollStep none s (.ok n)).stopped = false) ∧
    (∀ s : AgentState, s.stopped = false → s.crashed = false →
      (pollStep none s .unauthorized).crashed = true) ∧
    (pollRun none initialAgentState (List.replicate 11 .err)).stopped = true ∧
    (pollRun none initialAgentState (List.replicate 10 .err)).stopped = false := by
  refine ⟨?_, ?_, ?_, by decide, by decide⟩
  · intro s h1 h2
    have hs : pollStep none s .err =
        applyQuitChecks none { s with errorCount := s.errorCount + 1 } := by
      simp [pollStep, h1, h2]
    rw [hs]
    by_cases h : 10 < s.errorCount + 1 <;> simp [applyQuitChecks, h, h1]
  · intro s n h1 h2
    simp [pollStep, applyQuitChecks, h1, h2]
  · intro s h1 h2
    simp [pollStep, h1, h2]

/-- Claim C9, witness: the accounting theorem applied at the initial
agent state. -/
theorem pollAgent_error_accounting_witness :
    ((pollStep none initialAgentState .err).errorCount =
        initialAgentState.errorCount + 1 ∧
      ((pollStep none initialAgentState .err).stopped = true ↔
        10 < initialAgentState.errorCount + 1)) ∧
    ((pollStep none initialAgentState (.ok 2)).errorCount = 0 ∧
      (pollStep none initialAgentState (.ok 2)).stopped = false) ∧
    (pollStep none initialAgentState .unauthorized).crashed = true :=
  ⟨pollAgent_error_accounting.1 initialAgentState rfl rfl,
    pollAgent_error_accounting.2.1 initialAgentState 2 rfl rfl,
    pollAgent_error_accounting.2.2.1 initialAgentState rfl rfl⟩

/-- Claim C4 (code bug evidence): admission never consults or stores the
idempotency key.  Two identical admissions (same cluster, target
function, arguments — and, at the API layer, the same idempotency key,
which `createJob` does not even receive) insert two separate rows and
return the two distinct fresh ulids, and neither row carries an
idempotency key even though `data.ts` declares the column NOT NULL and
part of the primary key. -/
theorem createJob_ignores_idempotency_key :
    (createJob [] "s" "f" "a" "c" none none "01A" 0).2 = "01A" ∧
    (createJob (createJob [] "s" "f" "a" "c" none none "01A" 0).1
        "s" "f" "a" "c" none none "01B" 0).2 = "01B" ∧
    ("01A" : String) ≠ "01B" ∧
    (createJob (createJob [] "s" "f" "a" "c" none none "01A" 0).1
        "s" "f" "a" "c" none none "01B" 0).1.length = 2 ∧
    ∀ j ∈ (createJob (createJob [] "s" "f" "a" "c" none none "01A" 0).1
        "s" "f" "a" "c" none none "01B" 0).1, j.idempotency_key = none := by
  decide

/-- Concrete pending row with no attempts left, used to refute claim C1. -/
def c1PendingZeroJob : Job :=
  { id := "j1", owner_hash := "c", deployment_id := none, target_fn := "f",
    target_args := "a", idempotency_key := none, cache_key := none,
    status := .pending, result := none, result_type := none,
    executing_machine_id := none, remaining_attempts := 0,
    resulted_at := none, last_retrieved_at := none,
    timeout_interval_seconds := none, service := "s",
    predictive_retry_enabled := none }

/-- Claim C1, counterexample: a pending job with `remaining_attempts = 0`
IS claimed by `nextJobs` — the SQL filter requires `remaining_attempts >
0` only for status `failure` — and its attempt counter is driven to −1. -/
theorem pending_with_zero_attempts_is_claimed :
    c1PendingZeroJob.status = .pending ∧
    c1PendingZeroJob.remaining_attempts = 0 ∧
    (nextJobs [c1PendingZeroJob] "c" "s" 1 "m" 0).1 =
      [claimUpdate 0 "m" c1PendingZeroJob] ∧
    (claimUpdate 0 "m" c1PendingZeroJob).status = .running ∧
    (claimUpdate 0 "m" c1PendingZeroJob).remaining_attempts = -1 := by
  decide

/-- Helper: the only member of `l ++ [a]` outside `l` is `a`. -/
theorem list_mem_append_singleton {α : Type} {l : List α} {a x : α}
    (hx : x ∈ l ++ [a]) (hnot : x ∉ l) : x = a := by
  rcases List.mem_append.mp hx with h | h
  · exact absurd h hnot
  · simpa using h

/-- Helper: with pairwise-distinct ids over the table, id-membership in a
sublist of the table lifts to row-membership. -/
theorem mem_of_id_mem_sublist {db l : List Job} (hsub : l.Sublist db)
    (hnd : (db.map Job.id).Nodup) {j : Job} (hj : j ∈ db)
    (h : j.id ∈ l.map Job.id) : j ∈ l := by
  rcases List.mem_map.mp h with ⟨j', hj', hid⟩
  have hj'db : j' ∈ db := hsub.subset hj'
  have heq : j' = j := List.inj_on_of_nodup_map hnd hj'db hj hid
  rwa [heq] at hj'

/-- Helper: `createJob` either leaves the table unchanged (a cache hit)
or appends exactly one `newJobRow` with
`maxAttempts = (retryCountOnStall ?? 1) + 1`. -/
theorem createJob_inserts (db : List Job)
    (service targetFn targetArgs clusterId : String)
    (deploymentId : Option String) (callConfig : Option CallConfig)
    (jobId : String) (now : Int) :
    (createJob db service targetFn targetArgs clusterId deploymentId
        callConfig jobId now).1 = db ∨
    ∃ ck, (createJob db service targetFn targetArgs clusterId deploymentId
        callConfig jobId now).1 =
      db ++ [newJobRow jobId targetFn targetArgs clusterId deploymentId
        service ck
        (some (((callConfig.bind CallConfig.retryCountOnStall).getD
          DEFAULT_RETRY_COUNT_ON_STALL) + 1))
        (callConfig.bind CallConfig.timeoutSeconds)
        (callConfig.bind CallConfig.predictiveRetriesOnRejection)] := by
  simp only [createJob]
  split
  · split
    · simp only [createJobStrategiesCached]
      split
      · exact Or.inl rfl
      · exact Or.inr ⟨_, rfl⟩
    · exact Or.inr ⟨none, rfl⟩
  · exact Or.inr ⟨none, rfl⟩

/-- Claim C5 (confirmed): a row inserted by `createJob` has
`remaining_attempts = 1 + retry_count_on_stall` when the caller supplies
`retryCountOnStall`, and `remaining_attempts = 2` when it is omitted. -/
theorem createJob_remaining_attempts (db : List Job)
    (service targetFn targetArgs clusterId : String)
    (deploymentId : Option String) (callConfig : Option CallConfig)
    (jobId : String) (now : Int) :
    ∀ j ∈ (createJob db service targetFn targetArgs clusterId deploymentId
        callConfig jobId now).1, j ∉ db →
      (∀ v, callConfig.bind CallConfig.retryCountOnStall = some v →
        j.remaining_attempts = 1 + v) ∧
      (callConfig.bind CallConfig.retryCountOnStall = none →
        j.remaining_attempts = 2) := by
  intro j hj hnot
  rcases createJob_inserts db service targetFn targetArgs clusterId
      deploymentId callConfig jobId now with h | ⟨ck, h⟩
  · rw [h] at hj
    exact absurd hj hnot
  · rw [h] at hj
    have hjr := list_mem_append_singleton hj hnot
    subst hjr
    constructor
    · intro v hv
      simp [newJobRow, hv, DEFAULT_RETRY_COUNT_ON_STALL]
      omega
    · intro hv
      simp [newJobRow, hv, DEFAULT_RETRY_COUNT_ON_STALL]

/-- Claim C5, witness: admission with `retryCountOnStall = 3` inserts a
row with `remaining_attempts = 4`. -/
theorem createJob_remaining_attempts_witness :
    newJobRow "J" "f" "a" "c" none "s" none (some 4) none none ∈
      (createJob [] "s" "f" "a" "c" none
        (some ⟨none, some 3, none, none, none⟩) "J" 0).1 ∧
    newJobRow "J" "f" "a" "c" none "s" none (some 4) none none ∉
      ([] : List Job) ∧
    ((∀ v, (some (⟨none, some 3, none, none, none⟩ : CallConfig)).bind
          CallConfig.retryCountOnStall = some v →
        (newJobRow "J" "f" "a" "c" none "s" none (some 4) none
          none).remaining_attempts = 1 + v) ∧
      ((some (⟨none, some 3, none, none, none⟩ : CallConfig)).bind
          CallConfig.retryCountOnStall = none →
        (newJobRow "J" "f" "a" "c" none "s" none (some 4) none
          none).remaining_attempts = 2)) :=
  ⟨by decide, by decide,
    createJob_remaining_attempts [] "s" "f" "a" "c" none
      (some ⟨none, some 3, none, none, none⟩) "J" 0
      (newJobRow "J" "f" "a" "c" none "s" none (some 4) none none)
      (by decide) (by decide)⟩

/-- Claim C1 (corrected): `nextJobs` claims a row iff it is among the
first `limit` rows whose status is `pending` — with any
`remaining_attempts`, including 0 — or whose status is `failure` with
`remaining_attempts > 0`, for the caller's cluster and service.  The
`remaining_attempts > 0` requirement applies only to `failure` rows. -/
theorem nextJobs_claim_characterization
    (db : List Job) (owner service machineId : String) (limit : Nat)
    (now : Int) (j : Job) (hj : j ∈ db) (hnd : (db.map Job.id).Nodup) :
    (claimFilter owner service j = true ↔
      ((j.status = .pending ∨
          (j.status = .failure ∧ 0 < j.remaining_attempts)) ∧
        j.owner_hash = owner ∧ j.service = service)) ∧
    (j.id ∈ selectedIds db owner service limit ↔
      j ∈ (db.filter (claimFilter owner service)).take limit) ∧
    (j.id ∈ selectedIds db owner service limit →
      claimUpdate now machineId j ∈
        (nextJobs db owner service limit machineId now).1) ∧
    (j.id ∉ selectedIds db owner service limit →
      j ∈ (nextJobs db owner service limit machineId now).1) := by
  refine ⟨?_, ?_, ?_, ?_⟩
  · simp only [claimFilter, Bool.and_eq_true, Bool.or_eq_true, beq_iff_eq,
      decide_eq_true_eq, gt_iff_lt]
    tauto
  · constructor
    · intro h
      simp only [selectedIds] at h
      exact mem_of_id_mem_sublist
        ((List.take_sublist _ _).trans (List.filter_sublist _)) hnd hj h
    · intro h
      simp only [selectedIds]
      exact List.mem_map_of_mem Job.id h
  · intro h
    simp only [nextJobs]
    exact List.mem_map.mpr ⟨j, hj, by simp [h]⟩
  · intro h
    simp only [nextJobs]
    exact List.mem_map.mpr ⟨j, hj, by simp [h]⟩

/-- Claim C1, witness: the characterization applied to a one-row table
holding a pending job with no attempts left — which is selected and
claimed. -/
theorem nextJobs_claim_characterization_witness :
    c1PendingZeroJob ∈ [c1PendingZeroJob] ∧
    (([c1PendingZeroJob] : List Job).map Job.id).Nodup ∧
    ((claimFilter "c" "s" c1PendingZeroJob = true ↔
      ((c1PendingZeroJob.status = .pending ∨
          (c1PendingZeroJob.status = .failure ∧
            0 < c1PendingZeroJob.remaining_attempts)) ∧
        c1PendingZeroJob.owner_hash = "c" ∧
        c1PendingZeroJob.service = "s")) ∧
    (c1PendingZeroJob.id ∈ selectedIds [c1PendingZeroJob] "c" "s" 1 ↔
      c1PendingZeroJob ∈
        (([c1PendingZeroJob] : List Job).filter (claimFilter "c" "s")).take 1) ∧
    (c1PendingZeroJob.id ∈ selectedIds [c1PendingZeroJob] "c" "s" 1 →
      claimUpdate 0 "m" c1PendingZeroJob ∈
        (nextJobs [c1PendingZeroJob] "c" "s" 1 "m" 0).1) ∧
    (c1PendingZeroJob.id ∉ selectedIds [c1PendingZeroJob] "c" "s" 1 →
      c1PendingZeroJob ∈ (nextJobs [c1PendingZeroJob] "c" "s" 1 "m" 0).1)) :=
  ⟨by decide, by decide,
    nextJobs_claim_characterization [c1PendingZeroJob] "c" "s" "m" 1 0
      c1PendingZeroJob (by decide) (by decide)⟩

/-- Claim C2 (confirmed): a row claimed by `nextJobs` gets exactly
`status := running`, `remaining_attempts := remaining_attempts − 1`,
`last_retrieved_at := now` and `executing_machine_id := machineId`, in
one step; every other column — in particular `target_args` and
`service` — is unchanged, and unclaimed rows are untouched. -/
theorem nextJobs_claim_effect_and_frame
    (db : List Job) (owner service machineId : String) (limit : Nat)
    (now : Int) (i : Nat) (j : Job) (hij : db[i]? = some j) :
    ∃ j', (nextJobs db owner service limit machineId now).1[i]? = some j' ∧
      ((j.id ∈ selectedIds db owner service limit →
        j'.status = .running ∧
        j'.remaining_attempts = j.remaining_attempts - 1 ∧
        j'.last_retrieved_at = some now ∧
        j'.executing_machine_id = some machineId ∧
        j'.id = j.id ∧ j'.owner_hash = j.owner_hash ∧
        j'.deployment_id = j.deployment_id ∧ j'.target_fn = j.target_fn ∧
        j'.target_args = j.target_args ∧
        j'.idempotency_key = j.idempotency_key ∧
        j'.cache_key = j.cache_key ∧ j'.result = j.result ∧
        j'.result_type = j.result_type ∧ j'.resulted_at = j.resulted_at ∧
        j'.timeout_interval_seconds = j.timeout_interval_seconds ∧
        j'.service = j.service ∧
        j'.predictive_retry_enabled = j.predictive_retry_enabled) ∧
      (j.id ∉ selectedIds db owner service limit → j' = j)) := by
  have hdb' : (nextJobs db owner service limit machineId now).1 =
      db.map (fun x =>
        if (selectedIds db owner service limit).contains x.id then
          claimUpdate now machineId x else x) := rfl
  rw [hdb', List.getElem?_map, hij]
  refine ⟨_, rfl, ?_, ?_⟩
  · intro h
    simp [claimUpdate, h]
  · intro h
    simp [h]

/-- Concrete claimable pending row used to witness claims about
`nextJobs`. -/
def c2PendingJob : Job :=
  { id := "j2", owner_hash := "c", deployment_id := none, target_fn := "f",
    target_args := "aa", idempotency_key := none, cache_key := none,
    status := .pending, result := none, result_type := none,
    executing_machine_id := none, remaining_attempts := 2,
    resulted_at := none, last_retrieved_at := none,
    timeout_interval_seconds := none, service := "s",
    predictive_retry_enabled := none }

/-- Claim C2, witness: the effect-and-frame theorem applied to a one-row
table whose row is claimed. -/
theorem nextJobs_claim_effect_and_frame_witness :
    ([c2PendingJob] : List Job)[0]? = some c2PendingJob ∧
    ∃ j', (nextJobs [c2PendingJob] "c" "s" 1 "m" 7).1[0]? = some j' ∧
      ((c2PendingJob.id ∈ selectedIds [c2PendingJob] "c" "s" 1 →
        j'.status = .running ∧
        j'.remaining_attempts = c2PendingJob.remaining_attempts - 1 ∧
        j'.last_retrieved_at = some 7 ∧
        j'.executing_machine_id = some "m" ∧
        j'.id = c2PendingJob.id ∧ j'.owner_hash = c2PendingJob.owner_hash ∧
        j'.deployment_id = c2PendingJob.deployment_id ∧
        j'.target_fn = c2PendingJob.target_fn ∧
        j'.target_args = c2PendingJob.target_args ∧
        j'.idempotency_key = c2PendingJob.idempotency_key ∧
        j'.cache_key = c2PendingJob.cache_key ∧
        j'.result = c2PendingJob.result ∧
        j'.result_type = c2PendingJob.result_type ∧
        j'.resulted_at = c2PendingJob.resulted_at ∧
        j'.timeout_interval_seconds = c2PendingJob.timeout_interval_seconds ∧
        j'.service = c2PendingJob.service ∧
        j'.predictive_retry_enabled = c2PendingJob.predictive_retry_enabled) ∧
      (c2PendingJob.id ∉ selectedIds [c2PendingJob] "c" "s" 1 →
        j' = c2PendingJob)) :=
  ⟨by decide,
    nextJobs_claim_effect_and_frame [c2PendingJob] "c" "s" "m" 1 7 0
      c2PendingJob (by decide)⟩

/-- First of two claimable rows (id "a"), created earlier, for claim C3. -/
def c3JobA : Job :=
  { id := "a", owner_hash := "c", deployment_id := none, target_fn := "f",
    target_args := "x", idempotency_key := none, cache_key := none,
    status := .pending, result := none, result_type := none,
    executing_machine_id := none, remaining_attempts := 2,
    resulted_at := none, last_retrieved_at := none,
    timeout_interval_seconds := none, service := "s",
    predictive_retry_enabled := none }

/-- Second of two claimable rows (id "b"), created later, for claim C3. -/
def c3JobB : Job :=
  { id := "b", owner_hash := "c", deployment_id := none, target_fn := "f",
    target_args := "y", idempotency_key := none, cache_key := none,
    status := .failure, result := none, result_type := none,
    executing_machine_id := none, remaining_attempts := 1,
    resulted_at := none, last_retrieved_at := none,
    timeout_interval_seconds := none, service := "s",
    predictive_retry_enabled := none }

/-- Claim C3, counterexample: the claim subquery has no `ORDER BY`, so
the program does not guarantee FIFO selection: with two claimable rows
"a" (created earlier) and "b" (created later) and `limit = 1`, the
selection `["b"]` is an admissible outcome of the subquery — the
later-created claimable job is claimed while the earlier-created one
remains unclaimed, and the admissible outcome is not forced to be the
smallest-id one. -/
theorem fifo_not_guaranteed_without_order_by :
    isAdmissibleClaimSelection [c3JobA, c3JobB] "c" "s" 1 [c3JobB.id] =
      true ∧
    claimFilter "c" "s" c3JobA = true ∧
    claimFilter "c" "s" c3JobB = true ∧
    c3JobA.id < c3JobB.id ∧
    c3JobA.id ∉ ([c3JobB.id] : List String) ∧
    ¬ (∀ ids, isAdmissibleClaimSelection [c3JobA, c3JobB] "c" "s" 1 ids =
        true → ids = [c3JobA.id]) := by
  refine ⟨by decide, by decide, by decide, ?_, by decide, ?_⟩
  · rw [String.lt_iff_toList_lt]
    decide
  · intro h
    exact absurd (h [c3JobB.id] (by decide)) (by decide)

/-- Claim C3 (corrected): `nextJobs` claims up to `limit` claimable rows
of the caller's cluster and service — the selection has size
`min limit <claimable count>`, every selected id belongs to a claimable
row, and it is an admissible outcome of the unordered subquery — but the
subquery has no `ORDER BY`, so WHICH claimable rows are claimed is
unspecified by the program, and claiming in increasing id (creation)
order is not guaranteed. -/
theorem nextJobs_admissible_selection (db : List Job)
    (owner service : String) (limit : Nat)
    (hnd : (db.map Job.id).Nodup) :
    isAdmissibleClaimSelection db owner service limit
      (selectedIds db owner service limit) = true ∧
    (selectedIds db owner service limit).length =
      min limit (db.filter (claimFilter owner service)).length ∧
    ∀ i ∈ selectedIds db owner service limit,
      ∃ j ∈ db, j.id = i ∧ claimFilter owner service j = true := by
  have hlen : (selectedIds db owner service limit).length =
      min limit (db.filter (claimFilter owner service)).length := by
    simp [selectedIds]
  have hmem : ∀ i ∈ selectedIds db owner service limit,
      ∃ j ∈ db, j.id = i ∧ claimFilter owner service j = true := by
    intro i hi
    simp only [selectedIds, List.mem_map] at hi
    obtain ⟨j, hj, rfl⟩ := hi
    have hjF : j ∈ db.filter (claimFilter owner service) :=
      (List.take_sublist _ _).subset hj
    have hj' := List.mem_filter.mp hjF
    exact ⟨j, hj'.1, rfl, hj'.2⟩
  refine ⟨?_, hlen, hmem⟩
  simp only [isAdmissibleClaimSelection, Bool.and_eq_true]
  refine ⟨⟨?_, ?_⟩, ?_⟩
  · simp only [beq_iff_eq]
    exact hlen
  · rw [List.all_eq_true]
    intro i hi
    simp only [selectedIds, List.mem_map] at hi
    obtain ⟨j, hj, rfl⟩ := hi
    rw [List.any_eq_true]
    exact ⟨j, (List.take_sublist _ _).subset hj, by simp⟩
  · rw [decide_eq_true_eq]
    simp only [selectedIds]
    exact hnd.sublist
      (((List.take_sublist _ _).trans (List.filter_sublist _)).map Job.id)

/-- Claim C3, witness: the admissible-selection theorem applied to the
two-row table with `limit = 1`. -/
theorem nextJobs_admissible_selection_witness :
    (([c3JobA, c3JobB] : List Job).map Job.id).Nodup ∧
    (isAdmissibleClaimSelection [c3JobA, c3JobB] "c" "s" 1
        (selectedIds [c3JobA, c3JobB] "c" "s" 1) = true ∧
      (selectedIds [c3JobA, c3JobB] "c" "s" 1).length =
        min 1 (([c3JobA, c3JobB] : List Job).filter
          (claimFilter "c" "s")).length ∧
      ∀ i ∈ selectedIds [c3JobA, c3JobB] "c" "s" 1,
        ∃ j ∈ ([c3JobA, c3JobB] : List Job), j.id = i ∧
          claimFilter "c" "s" j = true) :=
  ⟨by decide,
    nextJobs_admissible_selection [c3JobA, c3JobB] "c" "s" 1 (by decide)⟩

/-- Helper: folding `pickNewestStep` from an incumbent always yields a
row that attains the maximal `resulted_at` of incumbent and candidates,
and is the FIRST such row in order (found by `find?`). -/
theorem pickNewest_foldl_some (l : List Job) (b : Job) :
    ∃ c, l.foldl pickNewestStep (some b) = some c ∧
      (∀ j ∈ b :: l, j.resulted_at.getD 0 ≤ c.resulted_at.getD 0) ∧
      (b :: l).find? (fun j =>
        decide (c.resulted_at.getD 0 ≤ j.resulted_at.getD 0)) = some c := by
  induction l generalizing b with
  | nil =>
      refine ⟨b, rfl, by simp, ?_⟩
      rw [List.find?_cons_of_pos]
      simp
  | cons a l ih =>
      by_cases hba : b.resulted_at.getD 0 < a.resulted_at.getD 0
      · obtain ⟨c, hc, hmax, hfind⟩ := ih a
        have hac : a.resulted_at.getD 0 ≤ c.resulted_at.getD 0 :=
          hmax a (by simp)
        refine ⟨c, ?_, ?_, ?_⟩
        · rw [List.foldl_cons, show pickNewestStep (some b) a = some a by
            simp [pickNewestStep, hba]]
          exact hc
        · intro j hj
          rcases List.mem_cons.mp hj with rfl | hj
          · omega
          · exact hmax j hj
        · rw [List.find?_cons_of_neg]
          · exact hfind
          · simp
            omega
      · obtain ⟨c, hc, hmax, hfind⟩ := ih b
        have hbc : b.resulted_at.getD 0 ≤ c.resulted_at.getD 0 :=
          hmax b (by simp)
        refine ⟨c, ?_, ?_, ?_⟩
        · rw [List.foldl_cons, show pickNewestStep (some b) a = some b by
            simp [pickNewestStep, hba]]
          exact hc
        · intro j hj
          rcases List.mem_cons.mp hj with rfl | hj
          · exact hbc
          · rcases List.mem_cons.mp hj with rfl | hj
            · omega
            · exact hmax j (by simp [hj])
        · by_cases hpb : c.resulted_at.getD 0 ≤ b.resulted_at.getD 0
          · rw [List.find?_cons_of_pos] at hfind
            · rw [List.find?_cons_of_pos]
              · exact hfind
              · simp [hpb]
            · simp [hpb]
          · rw [List.find?_cons_of_neg] at hfind
            · rw [List.find?_cons_of_neg, List.find?_cons_of_neg]
              · exact hfind
              · simp
                omega
              · simp [hpb]
            · simp [hpb]

/-- Helper: the cache probe returns nothing exactly when no row
matches. -/
theorem pickNewest_none_iff (l : List Job) : pickNewest l = none ↔ l = [] := by
  cases l with
  | nil => simp [pickNewest]
  | cons b l =>
      obtain ⟨c, hc, _, _⟩ := pickNewest_foldl_some l b
      have hh : pickNewest (b :: l) = l.foldl pickNewestStep (some b) := rfl
      rw [hh, hc]
      simp

/-- Helper: a returned probe row is a match, attains the maximal
`resulted_at`, and is the first row in table order attaining it. -/
theorem pickNewest_spec (l : List Job) (c : Job) (h : pickNewest l = some c) :
    c ∈ l ∧ (∀ j ∈ l, j.resulted_at.getD 0 ≤ c.resulted_at.getD 0) ∧
    l.find? (fun j =>
      decide (c.resulted_at.getD 0 ≤ j.resulted_at.getD 0)) = some c := by
  cases l with
  | nil => simp [pickNewest] at h
  | cons b l =>
      obtain ⟨c', hc', hmax, hfind⟩ := pickNewest_foldl_some l b
      have hh : pickNewest (b :: l) = l.foldl pickNewestStep (some b) := rfl
      rw [hh, hc'] at h
      cases h
      exact ⟨List.mem_of_find?_eq_some hfind, hmax, hfind⟩

/-- Helper: a `createJob` call whose config carries a non-empty cache key
and a non-zero ttl dispatches to the cached strategy. -/
theorem createJob_cached_dispatch
    (db : List Job) (service targetFn targetArgs clusterId : String)
    (deploymentId : Option String) (cfg : CallConfig) (jobId : String)
    (now : Int) (cacheCfg : CacheConfig)
    (hcache : cfg.cache = some cacheCfg)
    (hkey : cacheCfg.key ≠ "") (httl : cacheCfg.ttlSeconds ≠ 0) :
    createJob db service targetFn targetArgs clusterId deploymentId
        (some cfg) jobId now =
      createJobStrategiesCached db service targetFn targetArgs clusterId
        deploymentId cfg.timeoutSeconds
        (some ((cfg.retryCountOnStall.getD DEFAULT_RETRY_COUNT_ON_STALL) + 1))
        cfg.predictiveRetriesOnRejection cacheCfg.key cacheCfg.ttlSeconds
        jobId now := by
  have hcond : (cacheCfg.key != "" && cacheCfg.ttlSeconds != 0) = true := by
    simp [hkey, httl]
  simp [createJob, Option.some_bind, hcache, hcond]

/-- First of two cache-probe matches (id "a"), tied on `resulted_at`. -/
def c6JobA : Job :=
  { id := "a", owner_hash := "c", deployment_id := none, target_fn := "f",
    target_args := "x", idempotency_key := none, cache_key := some "k",
    status := .success, result := some "r1",
    result_type := some .resolution, executing_machine_id := none,
    remaining_attempts := 0, resulted_at := some 500,
    last_retrieved_at := none, timeout_interval_seconds := none,
    service := "s", predictive_retry_enabled := none }

/-- Second of two cache-probe matches (id "b"), tied on `resulted_at`
with `c6JobA`. -/
def c6JobB : Job :=
  { id := "b", owner_hash := "c", deployment_id := none, target_fn := "f",
    target_args := "y", idempotency_key := none, cache_key := some "k",
    status := .success, result := some "r2",
    result_type := some .resolution, executing_machine_id := none,
    remaining_attempts := 0, resulted_at := some 500,
    last_retrieved_at := none, timeout_interval_seconds := none,
    service := "s", predictive_retry_enabled := none }

/-- Claim C6, counterexample: the probe is `ORDER BY resulted_at DESC
LIMIT 1` — with two fresh successful resolutions tied on `resulted_at`
(ids "a" and "b"), BOTH rows are admissible probe results, because the
SQL specifies no tie order; the claimed deterministic id-descending
tie-break, which would always return "b", is therefore not implemented:
an execution returning "a" is admissible as well. -/
theorem cached_id_descending_tie_break_not_guaranteed :
    isCacheProbeResult (([c6JobA, c6JobB] : List Job).filter
      (cacheMatch 1000 "c" "s" "f" "k" 60)) c6JobA = true ∧
    isCacheProbeResult (([c6JobA, c6JobB] : List Job).filter
      (cacheMatch 1000 "c" "s" "f" "k" 60)) c6JobB = true ∧
    (cachedOrderingSpec (([c6JobA, c6JobB] : List Job).filter
      (cacheMatch 1000 "c" "s" "f" "k" 60))).map Job.id = some "b" ∧
    c6JobA.id = "a" ∧ ("a" : String) ≠ "b" ∧
    ¬ (∀ j : Job, isCacheProbeResult (([c6JobA, c6JobB] : List Job).filter
        (cacheMatch 1000 "c" "s" "f" "k" 60)) j = true → j.id = "b") := by
  refine ⟨by decide, by decide, by decide, by decide, by decide, ?_⟩
  intro h
  exact absurd (h c6JobA (by decide)) (by decide)

/-- Claim C6 (corrected): a caching admission probes for jobs matching
`(cluster, service, target_fn, cache_key, status = success, result_type =
resolution, resulted_at ≥ now − ttl)`, ordering candidates newest-first
on `resulted_at`; there is no id tie-break — among candidates tied at
the maximal `resulted_at`, which one is returned is unspecified.  On a
hit the id of a matching row attaining the maximal `resulted_at` is
returned and no row is inserted; on a miss a fresh pending row carrying
the cache key is inserted and the new id returned. -/
theorem createJob_cached_behavior
    (db : List Job) (service targetFn targetArgs clusterId : String)
    (deploymentId : Option String) (cfg : CallConfig) (jobId : String)
    (now : Int) (cacheCfg : CacheConfig)
    (hcache : cfg.cache = some cacheCfg)
    (hkey : cacheCfg.key ≠ "") (httl : cacheCfg.ttlSeconds ≠ 0) :
    (db.filter (cacheMatch now clusterId service targetFn cacheCfg.key
        cacheCfg.ttlSeconds) = [] →
      createJob db service targetFn targetArgs clusterId deploymentId
          (some cfg) jobId now =
        (db ++ [newJobRow jobId targetFn targetArgs clusterId deploymentId
          service (some cacheCfg.key)
          (some ((cfg.retryCountOnStall.getD
            DEFAULT_RETRY_COUNT_ON_STALL) + 1))
          cfg.timeoutSeconds cfg.predictiveRetriesOnRejection], jobId)) ∧
    (∀ jhit, pickNewest (db.filter (cacheMatch now clusterId service targetFn
        cacheCfg.key cacheCfg.ttlSeconds)) = some jhit →
      createJob db service targetFn targetArgs clusterId deploymentId
          (some cfg) jobId now = (db, jhit.id) ∧
      jhit ∈ db.filter (cacheMatch now clusterId service targetFn
        cacheCfg.key cacheCfg.ttlSeconds) ∧
      (∀ j' ∈ db.filter (cacheMatch now clusterId service targetFn
          cacheCfg.key cacheCfg.ttlSeconds),
        j'.resulted_at.getD 0 ≤ jhit.resulted_at.getD 0) ∧
      isCacheProbeResult (db.filter (cacheMatch now clusterId service
        targetFn cacheCfg.key cacheCfg.ttlSeconds)) jhit = true) := by
  rw [createJob_cached_dispatch db service targetFn targetArgs clusterId
    deploymentId cfg jobId now cacheCfg hcache hkey httl]
  constructor
  · intro hM
    have hpick : pickNewest (db.filter (cacheMatch now clusterId service
        targetFn cacheCfg.key cacheCfg.ttlSeconds)) = none := by
      rw [hM]
      rfl
    simp only [createJobStrategiesCached, hpick]
  · intro jhit hpick
    obtain ⟨hmem, hmax, _⟩ := pickNewest_spec _ jhit hpick
    have hadm : isCacheProbeResult (db.filter (cacheMatch now clusterId
        service targetFn cacheCfg.key cacheCfg.ttlSeconds)) jhit = true := by
      simp only [isCacheProbeResult, Bool.and_eq_true, List.all_eq_true]
      refine ⟨List.elem_iff.mpr hmem, ?_⟩
      intro j2 hj2
      simpa using hmax j2 hj2
    refine ⟨?_, hmem, hmax, hadm⟩
    simp only [createJobStrategiesCached, hpick]

/-- Claim C6, witness: the cached-behavior theorem applied at a two-row
table whose rows both match the probe, the hit being the first row. -/
theorem createJob_cached_behavior_witness :
    ((⟨some ⟨"k", 60⟩, none, none, none, none⟩ : CallConfig).cache =
      some ⟨"k", 60⟩) ∧
    (("k" : String) ≠ "") ∧ ((60 : Int) ≠ 0) ∧
    pickNewest (([c6JobA, c6JobB] : List Job).filter
      (cacheMatch 1000 "c" "s" "f" "k" 60)) = some c6JobA ∧
    (createJob [c6JobA, c6JobB] "s" "f" "x" "c" none
        (some ⟨some ⟨"k", 60⟩, none, none, none, none⟩) "new" 1000 =
      ([c6JobA, c6JobB], c6JobA.id) ∧
    c6JobA ∈ ([c6JobA, c6JobB] : List Job).filter
      (cacheMatch 1000 "c" "s" "f" "k" 60) ∧
    (∀ j' ∈ ([c6JobA, c6JobB] : List Job).filter
        (cacheMatch 1000 "c" "s" "f" "k" 60),
      j'.resulted_at.getD 0 ≤ c6JobA.resulted_at.getD 0) ∧
    isCacheProbeResult (([c6JobA, c6JobB] : List Job).filter
      (cacheMatch 1000 "c" "s" "f" "k" 60)) c6JobA = true) :=
  ⟨rfl, by decide, by decide, by decide,
    (createJob_cached_behavior [c6JobA, c6JobB] "s" "f" "x" "c" none
      ⟨some ⟨"k", 60⟩, none, none, none, none⟩ "new" 1000 ⟨"k", 60⟩
      rfl (by decide) (by decide)).2 c6JobA (by decide)⟩

/-- Helper: the rows returned by the status loop are the selection taken
from the final snapshot, whose index is at least the starting index. -/
theorem pollStatusLoop_rows (snaps : Nat → List Job) (c : String)
    (ids : List String) (t : Int) :
    ∀ fuel i reads sleeps,
      (pollStatusLoop snaps c ids t i fuel reads sleeps).rows =
        selectJobStatuses
          (snaps (pollStatusLoop snaps c ids t i fuel reads sleeps).lastIndex)
          c ids ∧
      i ≤ (pollStatusLoop snaps c ids t i fuel reads sleeps).lastIndex := by
  intro fuel
  induction fuel with
  | zero =>
      intro i reads sleeps
      simp [pollStatusLoop]
  | succ fuel ih =>
      intro i reads sleeps
      simp only [pollStatusLoop]
      split
      · refine ⟨(ih (i + 1) _ _).1, ?_⟩
        have := (ih (i + 1) (reads + 1)
          (if hasResolvedRows (selectJobStatuses (snaps i) c ids) then sleeps
            else sleeps + 1)).2
        omega
      · exact ⟨rfl, le_refl i⟩

/-- Helper: every snapshot read strictly before the loop's final one had
no resolved row among the selected ones. -/
theorem pollStatusLoop_earlier_unresolved (snaps : Nat → List Job)
    (c : String) (ids : List String) (t : Int) :
    ∀ fuel i reads sleeps k, i ≤ k →
      k < (pollStatusLoop snaps c ids t i fuel reads sleeps).lastIndex →
      hasResolvedRows (selectJobStatuses (snaps k) c ids) = false := by
  intro fuel
  induction fuel with
  | zero =>
      intro i reads sleeps k hik hk
      simp [pollStatusLoop] at hk
      omega
  | succ fuel ih =>
      intro i reads sleeps k hik hk
      simp only [pollStatusLoop] at hk
      split at hk
      · rename_i hcond
        rcases Nat.lt_or_ge k (i + 1) with hk2 | hk2
        · have hki : k = i := by omega
          subst hki
          have h1 : hasResolvedRows (selectJobStatuses (snaps k) c ids)
              = false := by
            have h2 := hcond
            simp only [Bool.and_eq_true, Bool.not_eq_true'] at h2
            exact h2.1
          exact h1
        · exact ih (i + 1) _ _ k hk2 hk
      · simp at hk
        omega

/-- Helper: provided enough fuel relative to the timeout, the loop stops
only because a resolved row was seen or because the elapsed time
(500 ms per completed iteration) has reached the timeout. -/
theorem pollStatusLoop_stop_reason (snaps : Nat → List Job) (c : String)
    (ids : List String) (t : Int) :
    ∀ (fuel i reads sleeps : Nat),
      t ≤ 500 * ((i : Int) + 1) + 500 * (fuel : Int) →
      hasResolvedRows
          (pollStatusLoop snaps c ids t i fuel reads sleeps).rows = true ∨
      t ≤ 500 *
        (((pollStatusLoop snaps c ids t i fuel reads sleeps).lastIndex :
          Int) + 1) := by
  intro fuel
  induction fuel with
  | zero =>
      intro i reads sleeps hfuel
      right
      simp only [pollStatusLoop]
      push_cast at hfuel ⊢
      omega
  | succ fuel ih =>
      intro i reads sleeps hfuel
      simp only [pollStatusLoop]
      split
      · rename_i hcond
        apply ih (i + 1)
        push_cast at hfuel ⊢
        omega
      · rename_i hcond
        by_cases hres :
            hasResolvedRows (selectJobStatuses (snaps i) c ids) = true
        · left
          exact hres
        · right
          have hres' :
              hasResolvedRows (selectJobStatuses (snaps i) c ids) = false :=
            Bool.eq_false_iff.mpr hres
          have hdec : ¬ (500 * ((i : Int) + 1) < t) := by
            intro hlt
            exact hcond (by simp [hres', hlt])
          show t ≤ 500 * ((i : Int) + 1)
          omega

/-- Helper: when the very first read already contains a resolved row, the
loop returns it at once: one read, no sleep. -/
theorem pollStatusLoop_immediate (snaps : Nat → List Job) (c : String)
    (ids : List String) (t : Int) (i fuel reads sleeps : Nat)
    (hres : hasResolvedRows (selectJobStatuses (snaps i) c ids) = true) :
    pollStatusLoop snaps c ids t i fuel reads sleeps =
      { rows := selectJobStatuses (snaps i) c ids, reads := reads + 1,
        sleeps := sleeps, lastIndex := i } := by
  cases fuel with
  | zero => simp [pollStatusLoop, hres]
  | succ fuel => simp [pollStatusLoop, hres]

/-- Helper: the selection of one read returns exactly the requested ids
that exist in the caller's cluster, with their stored fields. -/
theorem selectJobStatuses_spec (db : List Job) (c : String)
    (ids : List String) :
    (∀ r ∈ selectJobStatuses db c ids, r.id ∈ ids ∧
      ∃ j ∈ db, j.owner_hash = c ∧ j.id = r.id ∧ j.status = r.status) ∧
    (∀ j ∈ db, j.owner_hash = c → j.id ∈ ids →
      ∃ r ∈ selectJobStatuses db c ids, r.id = j.id ∧ r.status = j.status ∧
        r.result = j.result ∧ r.resultType = j.result_type) := by
  constructor
  · intro r hr
    simp only [selectJobStatuses, List.mem_map] at hr
    obtain ⟨j, hj, rfl⟩ := hr
    have hj' := List.mem_filter.mp hj
    have hcond := hj'.2
    simp only [Bool.and_eq_true, beq_iff_eq, List.elem_iff] at hcond
    exact ⟨hcond.2, j, hj'.1, hcond.1, rfl, rfl⟩
  · intro j hj hoc hidc
    refine ⟨⟨j.id, j.service, j.status, j.result, j.result_type⟩, ?_,
      rfl, rfl, rfl, rfl⟩
    simp only [selectJobStatuses, List.mem_map]
    refine ⟨j, List.mem_filter.mpr ⟨hj, ?_⟩, rfl⟩
    simp [hoc, hidc]

/-- Claim C7 (confirmed): for a non-empty id list, `getJobStatuses`
repeatedly reads the requested rows of the caller's cluster; it returns
the selection of its final read, every earlier read saw no row with
status `success` or `failure`, it stops only because a resolved row
appeared or the long-poll timeout elapsed (500 ms per unresolved read),
a resolved first read returns immediately after exactly one read and no
sleep, and the returned rows are exactly the requested ids that exist in
the caller's cluster — missing ids are silently omitted. -/
theorem getJobStatuses_long_poll (snaps : Nat → List Job)
    (clusterId : String) (jobIds : List String) (timeout : Int)
    (hne : jobIds ≠ []) :
    (getJobStatuses snaps clusterId jobIds timeout).rows =
      selectJobStatuses
        (snaps (getJobStatuses snaps clusterId jobIds timeout).lastIndex)
        clusterId jobIds ∧
    (∀ k < (getJobStatuses snaps clusterId jobIds timeout).lastIndex,
      hasResolvedRows (selectJobStatuses (snaps k) clusterId jobIds) =
        false) ∧
    (hasResolvedRows (getJobStatuses snaps clusterId jobIds timeout).rows =
        true ∨
      timeout ≤ 500 *
        (((getJobStatuses snaps clusterId jobIds timeout).lastIndex : Int)
          + 1)) ∧
    (hasResolvedRows (selectJobStatuses (snaps 0) clusterId jobIds) =
        true →
      getJobStatuses snaps clusterId jobIds timeout =
        { rows := selectJobStatuses (snaps 0) clusterId jobIds,
          reads := 1, sleeps := 0, lastIndex := 0 }) ∧
    (∀ r ∈ (getJobStatuses snaps clusterId jobIds timeout).rows,
      r.id ∈ jobIds ∧
      ∃ j ∈ snaps (getJobStatuses snaps clusterId jobIds timeout).lastIndex,
        j.owner_hash = clusterId ∧ j.id = r.id ∧ j.status = r.status) ∧
    (∀ j ∈ snaps (getJobStatuses snaps clusterId jobIds timeout).lastIndex,
      j.owner_hash = clusterId → j.id ∈ jobIds →
      ∃ r ∈ (getJobStatuses snaps clusterId jobIds timeout).rows,
        r.id = j.id ∧ r.status = j.status ∧ r.result = j.result ∧
          r.resultType = j.result_type) := by
  have h0 : ¬ ((jobIds.length == 0) = true) := by
    simpa [List.length_eq_zero] using hne
  have hunfold : getJobStatuses snaps clusterId jobIds timeout =
      pollStatusLoop snaps clusterId jobIds timeout 0
        (timeout.toNat / 500 + 1) 0 0 := by
    simp only [getJobStatuses]
    rw [if_neg h0]
  have hrows := pollStatusLoop_rows snaps clusterId jobIds timeout
    (timeout.toNat / 500 + 1) 0 0 0
  refine ⟨?_, ?_, ?_, ?_, ?_, ?_⟩
  · rw [hunfold]
    exact hrows.1
  · intro k hk
    rw [hunfold] at hk
    exact pollStatusLoop_earlier_unresolved snaps clusterId jobIds timeout
      (timeout.toNat / 500 + 1) 0 0 0 k (Nat.zero_le k) hk
  · rw [hunfold]
    apply pollStatusLoop_stop_reason
    rcases le_or_lt timeout 0 with ht | ht
    · have hpos : (0 : Int) ≤ 500 * ((timeout.toNat / 500 + 1 : Nat) : Int) := by
        positivity
      push_cast at hpos ⊢
      omega
    · have htn : (timeout.toNat : Int) = timeout :=
        Int.toNat_of_nonneg (le_of_lt ht)
      push_cast
      omega
  · intro hres
    rw [hunfold]
    exact pollStatusLoop_immediate snaps clusterId jobIds timeout 0
      (timeout.toNat / 500 + 1) 0 0 hres
  · intro r hr
    rw [hunfold] at hr
    rw [hrows.1] at hr
    have := (selectJobStatuses_spec
      (snaps (pollStatusLoop snaps clusterId jobIds timeout 0
        (timeout.toNat / 500 + 1) 0 0).lastIndex) clusterId jobIds).1 r hr
    rw [hunfold]
    exact this
  · intro j hj hoc hidc
    rw [hunfold] at hj ⊢
    rw [hrows.1]
    exact (selectJobStatuses_spec
      (snaps (pollStatusLoop snaps clusterId jobIds timeout 0
        (timeout.toNat / 500 + 1) 0 0).lastIndex) clusterId jobIds).2
      j hj hoc hidc

/-- Claim C7, witness: the long-poll theorem applied at a one-id request
over an empty cluster with timeout 0. -/
theorem getJobStatuses_long_poll_witness :
    (["a"] : List String) ≠ [] ∧
    ((getJobStatuses (fun _ => ([] : List Job)) "c" ["a"] 0).rows =
        selectJobStatuses ([] : List Job) "c" ["a"] ∧
      (∀ k < (getJobStatuses (fun _ => ([] : List Job)) "c"
          ["a"] 0).lastIndex,
        hasResolvedRows (selectJobStatuses ([] : List Job) "c" ["a"]) =
          false) ∧
      (hasResolvedRows (getJobStatuses (fun _ => ([] : List Job)) "c"
            ["a"] 0).rows = true ∨
        (0 : Int) ≤ 500 *
          (((getJobStatuses (fun _ => ([] : List Job)) "c"
            ["a"] 0).lastIndex : Int) + 1)) ∧
      (hasResolvedRows (selectJobStatuses ([] : List Job) "c" ["a"]) =
          true →
        getJobStatuses (fun _ => ([] : List Job)) "c" ["a"] 0 =
          { rows := selectJobStatuses ([] : List Job) "c" ["a"],
            reads := 1, sleeps := 0, lastIndex := 0 }) ∧
      (∀ r ∈ (getJobStatuses (fun _ => ([] : List Job)) "c" ["a"] 0).rows,
        r.id ∈ (["a"] : List String) ∧
        ∃ j ∈ ([] : List Job), j.owner_hash = "c" ∧ j.id = r.id ∧
          j.status = r.status) ∧
      (∀ j ∈ ([] : List Job), j.owner_hash = "c" →
        j.id ∈ (["a"] : List String) →
        ∃ r ∈ (getJobStatuses (fun _ => ([] : List Job)) "c"
            ["a"] 0).rows,
          r.id = j.id ∧ r.status = j.status ∧ r.result = j.result ∧
            r.resultType = j.result_type)) :=
  ⟨by decide,
    getJobStatuses_long_poll (fun _ => ([] : List Job)) "c" ["a"] 0
      (by decide)⟩
